import Mathlib

/-!
# WiFi-Kids — Challenge Orchestration and Adaptive Validation Engine

Shallow embedding of the decision logic of the WiFi-Kids backend:

* `api/integrations/validation.py`  — rule-based answer validator,
* `api/integrations/ai_validator.py` — AI judge with literal fallback,
* `api/integrations/langchain_agent.py` — answer aggregation / tier choice,
* `api/integrations/router.py` — agent selection,
* `api/routes/challenge.py` + `api/repositories/challenges.py` — the
  challenge session state machine behind `POST /challenge/answer`.

Python floats are modelled as rationals (`ℚ`), Python ints as `ℤ`/`ℕ`,
Python strings as Lean `String` with helper functions implemented by
structural recursion over the character list (so that every definition
is executable by `decide`).  Python's `str.lower`/`str.strip`/`str.split`
are modelled for the ASCII range, which covers all inputs appearing in
the theorems below.  Feedback/explanation strings are not modelled where
they are produced by `random.choice` over templates; no claim depends on
them.
-/

set_option allowUnsafeReducibility true
attribute [local semireducible] Rat.mul Rat.add Rat.div Rat.sub Rat.neg Rat.inv

/-! ## Python string helpers -/

/-- Lowercase a string character-wise (Python `str.lower`, ASCII range). -/
def pyLower (s : String) : String := String.mk (s.toList.map Char.toLower)

/-- Strip leading and trailing whitespace from a character list. -/
def stripChars (l : List Char) : List Char :=
  ((l.dropWhile Char.isWhitespace).reverse.dropWhile Char.isWhitespace).reverse

/-- Python `str.strip()`. -/
def pyStrip (s : String) : String := String.mk (stripChars s.toList)

/-- Split a character list on whitespace runs, dropping empty pieces.
`acc` holds the current (reversed) word. -/
def wordsAux : List Char → List Char → List (List Char)
  | [], acc => if acc.isEmpty then [] else [acc.reverse]
  | c :: cs, acc =>
    if c.isWhitespace then
      if acc.isEmpty then wordsAux cs [] else acc.reverse :: wordsAux cs []
    else
      wordsAux cs (c :: acc)

/-- Python `str.split()` (split on whitespace runs, no empty pieces). -/
def pySplit (s : String) : List String := (wordsAux s.toList []).map String.mk

/-- Python `" ".join(xs)`. -/
def joinSpace (xs : List String) : String := String.intercalate " " xs

/-- Membership of `needle` as a contiguous substring of `hay`
(Python `needle in hay`), decided at the character-list level. -/
def strContains (hay needle : String) : Bool :=
  hay.toList.tails.any (fun t => needle.toList.isPrefixOf t)

/-! ## `api/integrations/validation.py` — rule-based answer validator -/

/-- Python enum `ValidationStrategy`. -/
inductive ValidationStrategy
  | exact_match
  | fuzzy_match
  | semantic_match
  | partial_credit
  | balanced
deriving DecidableEq, Repr

/-- Python dataclass `ValidationConfig` (the `feedback_style` field only selects
feedback template text, which is not modelled). -/
structure ValidationConfig where
  strategy : ValidationStrategy
  score_threshold : ℚ
  allow_partial_credit : Bool
  max_partial_credit : ℚ
  case_sensitive : Bool
  ignore_whitespace : Bool
deriving DecidableEq, Repr

namespace AnswerValidator

/-- Entry `_initialize_persona_configs()["tutor"]`. -/
def tutorConfig : ValidationConfig :=
  { strategy := .partial_credit
    score_threshold := 8/10
    allow_partial_credit := true
    max_partial_credit := 7/10
    case_sensitive := false
    ignore_whitespace := true }

/-- Entry `_initialize_persona_configs()["maternal"]`. -/
def maternalConfig : ValidationConfig :=
  { strategy := .fuzzy_match
    score_threshold := 7/10
    allow_partial_credit := true
    max_partial_credit := 8/10
    case_sensitive := false
    ignore_whitespace := true }

/-- Entry `_initialize_persona_configs()["general"]`. -/
def generalConfig : ValidationConfig :=
  { strategy := .balanced
    score_threshold := 75/100
    allow_partial_credit := true
    max_partial_credit := 6/10
    case_sensitive := false
    ignore_whitespace := true }

/-- Dict `self.persona_configs`, keyed by the persona value.  `PersonaType`
is a `str` enum, so the runtime key space is the string value; modelling the
key as `String` keeps the dictionary `.get` fallthrough observable. -/
def persona_configs : List (String × ValidationConfig) :=
  [("tutor", tutorConfig), ("maternal", maternalConfig), ("general", generalConfig)]

/-- Lookup `self.persona_configs.get(persona, self.persona_configs[PersonaType.GENERAL])`. -/
def getConfig (persona : String) : ValidationConfig :=
  (persona_configs.lookup persona).getD generalConfig

/-- Method `_normalize_answer`. -/
def normalize_answer (answer : String) (config : ValidationConfig) : String :=
  let normalized := pyStrip answer
  let normalized := if ¬ config.case_sensitive then pyLower normalized else normalized
  if config.ignore_whitespace then joinSpace (pySplit normalized) else normalized

/-- The (lowercased) character set of a string, as used by `_fuzzy_match_score`
(`set(s.lower())`). -/
def charSet (s : String) : Finset Char := ((pyLower s).toList).toFinset

/-- Method `_fuzzy_match_score`. -/
def fuzzy_match_score (student_answer correct_answer : String) : ℚ :=
  if student_answer = "" ∨ correct_answer = "" then 0
  else
    let student_chars := charSet student_answer
    let correct_chars := charSet correct_answer
    if correct_chars = ∅ then 0
    else
      let intersection := student_chars ∩ correct_chars
      let union := student_chars ∪ correct_chars
      let jaccard_similarity : ℚ := (intersection.card : ℚ) / (union.card : ℚ)
      let length_similarity : ℚ :=
        1 - |(student_answer.length : ℚ) - (correct_answer.length : ℚ)| /
              (max (max student_answer.length correct_answer.length) 1 : ℕ)
      7/10 * jaccard_similarity + 3/10 * length_similarity

/-- The word set of a string (`set(s.lower().split())`). -/
def wordSet (s : String) : Finset String := (pySplit (pyLower s)).toFinset

/-- Method `_semantic_match_score` (the `subject` argument is unused by the source). -/
def semantic_match_score (student_answer correct_answer : String) : ℚ :=
  let student_words := wordSet student_answer
  let correct_words := wordSet correct_answer
  if correct_words = ∅ then 0
  else ((student_words ∩ correct_words).card : ℚ) / (correct_words.card : ℚ)

/-- Method `_partial_credit_score`. -/
def partial_credit_score (student_answer correct_answer : String)
    (config : ValidationConfig) : ℚ :=
  if student_answer = correct_answer then 1
  else if ¬ config.allow_partial_credit then 0
  else
    let exact_score : ℚ := if student_answer = correct_answer then 1 else 0
    let fuzzy_score := fuzzy_match_score student_answer correct_answer
    let semantic_score := semantic_match_score student_answer correct_answer
    min (exact_score * (5/10) + fuzzy_score * (3/10) + semantic_score * (2/10))
        config.max_partial_credit

/-- Method `_calculate_score`. -/
def calculate_score (student_answer correct_answer : String)
    (config : ValidationConfig) : ℚ :=
  match config.strategy with
  | .exact_match => if student_answer = correct_answer then 1 else 0
  | .fuzzy_match => fuzzy_match_score student_answer correct_answer
  | .semantic_match => semantic_match_score student_answer correct_answer
  | .partial_credit => partial_credit_score student_answer correct_answer config
  | .balanced =>
    let exact_score : ℚ := if student_answer = correct_answer then 1 else 0
    if exact_score = 1 then 1
    else max exact_score (fuzzy_match_score student_answer correct_answer * config.max_partial_credit)

/-- Result of the rule-based validator: `correct` and `score` of the returned
dict (`feedback`/`explanation` are presentation text, not modelled). -/
structure RuleResult where
  correct : Bool
  score : ℚ
deriving DecidableEq, Repr

/-- Method `validate_answer` (the `question` and `subject` arguments feed only the
feedback/explanation text and are omitted). -/
def validate_answer (student_answer correct_answer : String) (persona : String) :
    RuleResult :=
  let config := getConfig persona
  let normalized_student := normalize_answer student_answer config
  let normalized_correct := normalize_answer correct_answer config
  let score := calculate_score normalized_student normalized_correct config
  { correct := decide (score ≥ config.score_threshold), score := score }

end AnswerValidator

/-! ## `api/integrations/ai_validator.py` — AI judge with literal fallback -/

/-- Which tier produced a validation outcome, as recorded in the optional
`metadata` dict of the returned result: `ai` models
`{"ai_validation": True, ...}`, `literal_fallback` models
`{"ai_validation": False, "fallback": True}`.  The rule-based engine
(`validation.py`) attaches no metadata at all, modelled as `none`. -/
inductive ValidationTier
  | ai
  | literal_fallback
deriving DecidableEq, Repr

/-- A validation outcome as it crosses tier boundaries: the `correct` and
`score` fields of the returned dict plus the tier tag from `metadata`. -/
structure ValidationResult where
  correct : Bool
  score : ℚ
  tier : Option ValidationTier
deriving DecidableEq, Repr

/-- The parsed JSON verdict of the OpenAI judging call in
`AIAnswerValidator.validate_answer` (fields read from `ai_result`). -/
structure AIJudgment where
  correct : Bool
  score : ℚ
deriving DecidableEq, Repr

namespace AIAnswerValidator

/-- Method `_fallback_validation`: literal case/whitespace-insensitive matching of the
student answer against the option letters and texts; the matched option is
counted correct exactly when it is option 0 (the source comments
"assume first option is correct"). -/
def fallback_validation (options : List String) (student_answer : String) :
    ValidationResult :=
  let student_answer_clean := pyLower (pyStrip student_answer)
  match options.enum.find? (fun p =>
      let option_letter := String.mk [(Char.ofNat (65 + p.1)).toLower]
      let option_text := pyStrip (pyLower p.2)
      (student_answer_clean == option_letter) ||
      (student_answer_clean == option_text) ||
      strContains student_answer_clean option_text ||
      strContains option_text student_answer_clean) with
  | some (i, _) =>
    { correct := decide (i = 0)
      score := if i = 0 then 1 else 0
      tier := some .literal_fallback }
  | none =>
    { correct := false, score := 0, tier := some .literal_fallback }

/-- Method `validate_answer`: the OpenAI call + JSON parse is the opaque external
effect `ai_call`; the function catches every exception of that call and
answers with `_fallback_validation`.  (The question's `options` list is all
the fallback reads from the question dict.) -/
def validate_answer (ai_call : Except String AIJudgment)
    (question_options : List String) (student_answer : String) : ValidationResult :=
  match ai_call with
  | .ok r => { correct := r.correct, score := r.score, tier := some .ai }
  | .error _ => fallback_validation question_options student_answer

end AIAnswerValidator

/-! ## `api/integrations/langchain_agent.py` — answer aggregation -/

/-- A question as read by the validation path: its `id` and `options`
(the prompt/explanation feed only prompt construction and feedback text). -/
structure Question where
  id : String
  options : List String
deriving DecidableEq, Repr

/-- One submitted answer (`api/schemas/challenge.py::Answer`). -/
structure Answer where
  id : String
  value : String
deriving DecidableEq, Repr

/-- The challenge payload fields read by `validate_answers`
(`metadata_persona` is `payload["metadata"].get("persona", "general")`). -/
structure ChallengePayload where
  questions : List Question
  answer_key : List (String × String)
  metadata_persona : String
deriving DecidableEq, Repr

namespace LangChainAgent

/-- The per-persona pass thresholds of `validate_answers`
(`threshold_map.get(persona, 0.75)`). -/
def threshold_map : List (String × ℚ) :=
  [("tutor", 8/10), ("maternal", 7/10), ("general", 75/100)]

/-- Lookup `threshold = threshold_map.get(persona, 0.75)`. -/
def getThreshold (persona : String) : ℚ :=
  ((threshold_map.lookup persona).getD (75/100))

/-- The rule-based engine's outcome carries no `metadata` key. -/
def ruleResult (student_answer correct_answer persona : String) : ValidationResult :=
  let r := AnswerValidator.validate_answer student_answer correct_answer persona
  { correct := r.correct, score := r.score, tier := none }

/-- One loop iteration of `validate_answers` for one submitted answer:
`none` models the `continue` taken when no question has the answer's id.
`ai` is the AI-validator tier: `none` when the `ai_validator` import failed
(then the rule-based engine runs directly), `some ai_call` when available,
with `ai_call` the outcome of the judging call.  `AIAnswerValidator.validate_answer`
catches every exception of that call internally, so the surrounding
`except` that would fall back to the rule-based engine is unreachable for
well-typed inputs and has no branch here. -/
def validate_one (ai : Option (Except String AIJudgment))
    (payload : ChallengePayload) (answer : Answer) : Option ValidationResult :=
  match payload.questions.find? (fun q => q.id == answer.id) with
  | none => none
  | some question =>
    match ai with
    | some ai_call =>
      some (AIAnswerValidator.validate_answer ai_call question.options answer.value)
    | none =>
      some (ruleResult answer.value
        ((payload.answer_key.lookup answer.id).getD "") payload.metadata_persona)

/-- Method `validate_answers`: sums the per-answer scores, divides by the number of
questions in the payload, and passes when the mean reaches the persona
threshold.  The aggregate dict carries no tier metadata. -/
def validate_answers (ai : Option (Except String AIJudgment))
    (payload : ChallengePayload) (answers : List Answer) : ValidationResult :=
  let total_questions := payload.questions.length
  let results := answers.filterMap (validate_one ai payload)
  let total_score := (results.map (fun r => r.score)).sum
  let final_score : ℚ :=
    if total_questions > 0 then total_score / (total_questions : ℚ) else 0
  let threshold := getThreshold payload.metadata_persona
  { correct := decide (final_score ≥ threshold), score := final_score, tier := none }

end LangChainAgent

/-! ## `api/routes/challenge.py` + `api/repositories/challenges.py` —
the challenge session state machine behind `POST /challenge/answer` -/

/-- The multi-question progress record stored in
`payload["session_progress"]`. -/
structure SessionProgress where
  questions_answered_correctly : ℕ
  total_questions_required : ℕ
  questions_attempted : ℕ
deriving DecidableEq, Repr

/-- The `Challenge` row fields read and written by the route (`payload` is
split into its parts; `mac`/`router_id` only flow into side effects). -/
structure Challenge where
  questions : List Question
  answer_key : List (String × String)
  metadata_persona : String
  session_progress : Option SessionProgress
  attempts_left : ℤ
  status : String
deriving DecidableEq, Repr

/-- The decision value of the HTTP response
(`ChallengeApprovedOut` / `ChallengePendingOut` / `ChallengeContinueOut`). -/
inductive Decision
  | ALLOW (allowed_minutes : ℕ)
  | DENY (attempts_left : ℤ) (reason : String)
  | CONTINUE (progress : SessionProgress)
deriving DecidableEq, Repr

/-- Outcome of one `POST /challenge/answer` call: either an
`HTTPException` (no session write) or the committed challenge row together
with the response decision. -/
inductive RouteResult
  | httpError (status_code : ℕ) (detail : String)
  | ok (ch : Challenge) (decision : Decision)
deriving DecidableEq, Repr

/-- Default of the `SESSION_TTL_SEC` setting. -/
def SESSION_TTL_SEC : ℕ := 900

/-- Function `repositories/challenges.py::decrement_attempts`:
`ch.attempts_left = max(0, (ch.attempts_left or 0) - 1)`. -/
def decrement_attempts (attempts_left : ℤ) : ℤ :=
  max 0 (attempts_left - 1)

/-- The decision section of `challenge_answer` (challenge.py lines 163-288)
with the aggregate validation verdict abstracted to `validation_correct` and
the provider's freshly generated payload abstracted to
`next_questions`/`next_answer_key`.  Faithful branch order:
status precondition, progress update + commit, ALLOW check,
max-attempts check (on `attempts_left` alone), incorrect-answer check,
otherwise CONTINUE with the new question set. -/
def challenge_answer_core (ch : Challenge) (validation_correct : Bool)
    (next_questions : List Question) (next_answer_key : List (String × String)) :
    RouteResult :=
  if ch.status ≠ "open" then .httpError 400 "challenge_closed"
  else
    let session_progress := ch.session_progress.getD ⟨0, 2, 0⟩
    let session_progress :=
      { session_progress with questions_attempted := session_progress.questions_attempted + 1 }
    let session_progress :=
      if validation_correct then
        { session_progress with
            questions_answered_correctly := session_progress.questions_answered_correctly + 1 }
      else session_progress
    let ch := { ch with session_progress := some session_progress }
    if session_progress.questions_answered_correctly ≥ session_progress.total_questions_required then
      .ok { ch with status := "passed" } (.ALLOW (SESSION_TTL_SEC / 60))
    else if ch.attempts_left ≤ 1 then
      .ok { ch with attempts_left := decrement_attempts ch.attempts_left, status := "failed" }
        (.DENY 0 "max_attempts_reached")
    else if ¬ validation_correct then
      let ch := { ch with attempts_left := decrement_attempts ch.attempts_left }
      .ok ch (.DENY (ch.attempts_left - 1) "incorrect_answer")
    else
      .ok { ch with questions := next_questions, answer_key := next_answer_key }
        (.CONTINUE session_progress)

/-- The whole route: validate the submitted answers against the current
payload (via the selected agent's `validate_answers`), then decide.  In the
source the status check precedes validation and validation precedes the
progress write; validation is effect-free on the challenge row, so composing
through `challenge_answer_core` preserves the observable behaviour. -/
def challenge_answer (ai : Option (Except String AIJudgment)) (ch : Challenge)
    (answers : List Answer) (next_questions : List Question)
    (next_answer_key : List (String × String)) : RouteResult :=
  let validation_result :=
    LangChainAgent.validate_answers ai
      ⟨ch.questions, ch.answer_key, ch.metadata_persona⟩ answers
  challenge_answer_core ch validation_result.correct next_questions next_answer_key

/-- The abstracted input of one `submitAnswers` call in a call sequence. -/
structure CallInput where
  validation_correct : Bool
  next_questions : List Question
  next_answer_key : List (String × String)
deriving DecidableEq, Repr

/-- State reached after one call: an `HTTPException` writes nothing. -/
def apply_call (ch : Challenge) (inp : CallInput) : Challenge :=
  match challenge_answer_core ch inp.validation_correct inp.next_questions inp.next_answer_key with
  | .httpError _ _ => ch
  | .ok ch2 _ => ch2

/-- State reached after a sequence of `submitAnswers` calls. -/
def run_calls (ch : Challenge) (inps : List CallInput) : Challenge :=
  inps.foldl apply_call ch

/-! ## `api/integrations/router.py` — agent selection -/

/-- Python enum `PersonaType` (`api/integrations/types.py`). -/
inductive PersonaType
  | tutor
  | maternal
  | general
deriving DecidableEq, Repr

/-- Python enum `SubjectType`, in declaration order (`list(SubjectType)` iterates it). -/
inductive SubjectType
  | math
  | history
  | geography
  | english
  | physics
  | science
  | literature
  | art
deriving DecidableEq, Repr

/-- Python enum `DifficultyLevel`. -/
inductive DifficultyLevel
  | easy
  | medium
  | hard
deriving DecidableEq, Repr

/-- Python str-enum `LLMProvider`. -/
inductive LLMProvider
  | openai
  | anthropic
  | google
  | mock
deriving DecidableEq, Repr

/-- The `.value` string of the `LLMProvider` str-enum. -/
def LLMProvider.value : LLMProvider → String
  | .openai => "openai"
  | .anthropic => "anthropic"
  | .google => "google"
  | .mock => "mock"

/-- Python enum `PolicyType`. -/
inductive PolicyType
  | educational
  | strict
  | flexible
  | gamified
deriving DecidableEq, Repr

/-- Python dataclass `AgentConfig`. -/
structure AgentConfig where
  agent_type : String
  llm_provider : LLMProvider
  model : String
  temperature : ℚ
  max_tokens : ℕ
  persona : PersonaType
  policy : PolicyType
  subjects : List SubjectType
  difficulty_range : List DifficultyLevel
  description : String
deriving DecidableEq, Repr

/-- File `utils/constants.py` is not in the source tree; its `MODEL_NAME` matches
the `OPENAI_MODEL` default and plays no role in selection. -/
def MODEL_NAME : String := "gpt-4o-mini"

/-- Registry `AgentRouter._initialize_agent_configs()`, in dict insertion order. -/
def agent_configs : List (String × AgentConfig) :=
  [ ("tutor_openai",
     { agent_type := "langchain", llm_provider := .openai, model := MODEL_NAME
       temperature := 3/10, max_tokens := 1000, persona := .tutor
       policy := .educational
       subjects := [.math, .science, .english]
       difficulty_range := [.easy, .medium, .hard]
       description := "Educational tutor with structured learning approach" })
  , ("maternal_openai",
     { agent_type := "langchain", llm_provider := .openai, model := MODEL_NAME
       temperature := 4/10, max_tokens := 1200, persona := .maternal
       policy := .flexible
       subjects := [.math, .history, .literature, .art]
       difficulty_range := [.easy, .medium]
       description := "Caring maternal figure with nurturing approach" })
  , ("general_openai",
     { agent_type := "langchain", llm_provider := .openai, model := MODEL_NAME
       temperature := 2/10, max_tokens := 800, persona := .general
       policy := .gamified
       subjects := [.math, .history, .geography, .english, .physics, .science, .literature, .art]
       difficulty_range := [.medium, .hard]
       description := "General educational assistant with gamified approach" })
  , ("strict_openai",
     { agent_type := "langchain", llm_provider := .openai, model := MODEL_NAME
       temperature := 1/10, max_tokens := 600, persona := .tutor
       policy := .strict
       subjects := [.math, .physics, .science]
       difficulty_range := [.medium, .hard]
       description := "Strict educational approach with high standards" })
  , ("mock_fallback",
     { agent_type := "mock", llm_provider := .mock, model := "mock"
       temperature := 0, max_tokens := 0, persona := .general
       policy := .educational
       subjects := [.math]
       difficulty_range := [.easy]
       description := "Mock agent for testing and fallback" }) ]

/-- Python TypedDict `AgentContext` as consulted by `select_agent`: only the
`persona`/`subject`/`difficulty` fields drive the filters;
`locale`/`mac`/`router_id` are carried but unread. -/
structure AgentContext where
  locale : String
  mac : String
  router_id : String
  persona : PersonaType
  subject : Option SubjectType
  difficulty : Option DifficultyLevel
deriving DecidableEq, Repr

/-- The availability snapshot + router settings
(`ROUTER_ENABLED`, `ROUTER_PREFER_LLM`, `ROUTER_FALLBACK_TO_MOCK`,
`bool(OPENAI_API_KEY)`). -/
structure RouterSettings where
  router_enabled : Bool
  prefer_llm : String
  fallback_to_mock : Bool
  openai_api_key_present : Bool
deriving DecidableEq, Repr

namespace AgentRouter

/-- Method `_is_llm_available`. -/
def is_llm_available (st : RouterSettings) : LLMProvider → Bool
  | .mock => true
  | .openai => st.openai_api_key_present
  | .anthropic => false
  | .google => false

/-- The filter body of the `for config_id, config in ...` loop of
`select_agent`: persona equality, optional subject membership, optional
difficulty membership, provider availability. -/
def config_matches (st : RouterSettings) (ctx : AgentContext)
    (config : AgentConfig) : Bool :=
  decide (config.persona = ctx.persona) &&
  (match ctx.subject with
   | some s => decide (s ∈ config.subjects)
   | none => true) &&
  (match ctx.difficulty with
   | some d => decide (d ∈ config.difficulty_range)
   | none => true) &&
  is_llm_available st config.llm_provider

/-- List `matching_configs` accumulated by the loop, in registry order. -/
def matching_configs (st : RouterSettings) (ctx : AgentContext) :
    List (String × AgentConfig) :=
  agent_configs.filter (fun p => config_matches st ctx p.2)

/-- The `if matching_configs:` selection block: first preferred-provider
entry, else first non-mock entry, else the first match. -/
def select_from (prefer_llm : String) (matching : List (String × AgentConfig)) :
    Option (String × AgentConfig) :=
  match matching with
  | [] => none
  | first :: _ =>
    match matching.filter (fun p => decide (p.2.llm_provider.value = prefer_llm)) with
    | p :: _ => some p
    | [] =>
      match matching.filter (fun p => decide (p.2.llm_provider ≠ LLMProvider.mock)) with
      | n :: _ => some n
      | [] => some first

/-- What `select_agent` returns, observed as which agent was built:
`mock` is `create_agent("mock")` (router disabled or fallback), `agent id
cfg` is `create_agent(cfg.agent_type)` for the selected registry entry,
`no_agent` is the propagated `ValueError` (no fallback allowed). -/
inductive SelectResult
  | mock
  | agent (config_id : String) (config : AgentConfig)
  | no_agent
deriving DecidableEq, Repr

/-- Method `select_agent`.  The surrounding `try/except` only re-routes the
`ValueError` raised on an empty match list: with `ROUTER_FALLBACK_TO_MOCK`
it becomes `create_agent("mock")`, otherwise it propagates. -/
def select_agent (st : RouterSettings) (ctx : AgentContext) : SelectResult :=
  if ¬ st.router_enabled then .mock
  else
    match select_from st.prefer_llm (matching_configs st ctx) with
    | some p => .agent p.1 p.2
    | none => if st.fallback_to_mock then .mock else .no_agent

end AgentRouter

/-! ## Concrete fixtures and spec-side formulas used by the theorems -/

/-- An open challenge one correct answer away from nothing: `attempts_left = 1`,
progress `0 / 2`. -/
def chC1 : Challenge :=
  { questions := [⟨"q1", ["3", "4", "5", "6"]⟩]
    answer_key := [("q1", "4")]
    metadata_persona := "tutor"
    session_progress := some ⟨0, 2, 0⟩
    attempts_left := 1
    status := "open" }

/-- Spec scenario 2 setup: attempts 2, one required question. -/
def chC2 : Challenge :=
  { questions := [⟨"q1", ["3", "4", "5", "6"]⟩]
    answer_key := [("q1", "4")]
    metadata_persona := "tutor"
    session_progress := some ⟨0, 1, 0⟩
    attempts_left := 2
    status := "open" }

/-- An open challenge with two attempts and progress `0 / 2`. -/
def chC5 : Challenge :=
  { questions := [⟨"q1", ["3", "4", "5", "6"]⟩]
    answer_key := [("q1", "4")]
    metadata_persona := "tutor"
    session_progress := some ⟨0, 2, 0⟩
    attempts_left := 2
    status := "open" }

/-- One-question payload whose correct answer "4" is option index 1. -/
def payloadC6 : ChallengePayload :=
  { questions := [⟨"q1", ["5", "4"]⟩]
    answer_key := [("q1", "4")]
    metadata_persona := "tutor" }

/-- Jaccard similarity of two finite character sets, as the spec states it. -/
def jaccard_similarity (A B : Finset Char) : ℚ :=
  ((A ∩ B).card : ℚ) / ((A ∪ B).card : ℚ)


/-- C1: the claim says the max-attempts DENY is taken only for an incorrect
answer, and that a correct answer short of the requirement always yields
CONTINUE.  The code checks `attempts_left <= 1` before looking at
correctness: on this open session with `attempts_left = 1` and progress
`0/2`, the validator accepts the answer, yet the route decrements the
attempts, marks the session `failed` and returns DENY with reason
`max_attempts_reached` instead of CONTINUE. -/
theorem correct_answer_still_denied_at_last_attempt :
    (LangChainAgent.validate_answers none
        ⟨chC1.questions, chC1.answer_key, chC1.metadata_persona⟩ [⟨"q1", "4"⟩]).correct = true ∧
    challenge_answer none chC1 [⟨"q1", "4"⟩] [⟨"q2", ["1", "2"]⟩] [("q2", "1")] =
      .ok { chC1 with session_progress := some ⟨1, 2, 1⟩, attempts_left := 0, status := "failed" }
        (.DENY 0 "max_attempts_reached") := by
  decide


/-- C2: with `attempts = 2` the first wrong answer stores
`attempts_left = 1` but the DENY response reports `attempts_left = 0`
(the route returns `ch.attempts_left - 1` after `decrement_attempts` has
already updated the row), where the claim says the response carries the
post-decrement value 1.  The second wrong answer and the `SessionClosed`
third call behave as the claim states. -/
theorem first_wrong_answer_reports_zero_attempts :
    challenge_answer none chC2 [⟨"q1", "7"⟩] [] [] =
      .ok { chC2 with session_progress := some ⟨0, 1, 1⟩, attempts_left := 1 }
        (.DENY 0 "incorrect_answer") ∧
    challenge_answer none { chC2 with session_progress := some ⟨0, 1, 1⟩, attempts_left := 1 }
        [⟨"q1", "7"⟩] [] [] =
      .ok { chC2 with session_progress := some ⟨0, 1, 2⟩, attempts_left := 0, status := "failed" }
        (.DENY 0 "max_attempts_reached") ∧
    challenge_answer none
        { chC2 with session_progress := some ⟨0, 1, 2⟩, attempts_left := 0, status := "failed" }
        [⟨"q1", "7"⟩] [] [] = .httpError 400 "challenge_closed" := by
  decide



/-- C6 counterexample: when the AI-judge call throws, the outcome returned
is the AI validator's literal option-matching fallback (here: incorrect,
score 0, tagged as the fallback tier), not the rule-based engine's outcome
(which on the same input is correct with score 1 and carries no tier tag). -/
theorem ai_throw_returns_literal_not_rule_based :
    LangChainAgent.validate_one (some (.error "OpenAIError")) payloadC6 ⟨"q1", "4"⟩ =
      some ⟨false, 0, some .literal_fallback⟩ ∧
    LangChainAgent.validate_one none payloadC6 ⟨"q1", "4"⟩ =
      some ⟨true, 1, none⟩ := by
  decide

/-- C6 amended: answer validation returns normally on every input; when the
AI-judge call throws, the AI validator's own literal case/whitespace-
insensitive option-matching outcome is returned, tagged as the non-AI
fallback tier; the rule-based engine's outcome (carrying no tier tag) is
returned when the AI-validator tier is unavailable. -/
theorem validation_tier_order (e : String) (payload : ChallengePayload)
    (a : Answer) (q : Question)
    (hfind : payload.questions.find? (fun q2 => q2.id == a.id) = some q) :
    LangChainAgent.validate_one (some (.error e)) payload a =
      some (AIAnswerValidator.fallback_validation q.options a.value) ∧
    (AIAnswerValidator.fallback_validation q.options a.value).tier =
      some .literal_fallback ∧
    LangChainAgent.validate_one none payload a =
      some (LangChainAgent.ruleResult a.value
        ((payload.answer_key.lookup a.id).getD "") payload.metadata_persona) ∧
    (LangChainAgent.ruleResult a.value
        ((payload.answer_key.lookup a.id).getD "") payload.metadata_persona).tier =
      none := by
  refine ⟨?_, ?_, ?_, rfl⟩
  · unfold LangChainAgent.validate_one
    rw [hfind]
    rfl
  · unfold AIAnswerValidator.fallback_validation
    dsimp only
    split <;> rfl
  · unfold LangChainAgent.validate_one
    rw [hfind]

theorem validation_tier_order_w :
    LangChainAgent.validate_one (some (.error "OpenAIError")) payloadC6 ⟨"q1", "4"⟩ =
      some (AIAnswerValidator.fallback_validation ["5", "4"] "4") ∧
    (AIAnswerValidator.fallback_validation ["5", "4"] "4").tier = some .literal_fallback ∧
    LangChainAgent.validate_one none payloadC6 ⟨"q1", "4"⟩ =
      some (LangChainAgent.ruleResult "4"
        ((payloadC6.answer_key.lookup "q1").getD "") payloadC6.metadata_persona) ∧
    (LangChainAgent.ruleResult "4"
        ((payloadC6.answer_key.lookup "q1").getD "") payloadC6.metadata_persona).tier = none :=
  validation_tier_order "OpenAIError" payloadC6 ⟨"q1", "4"⟩ ⟨"q1", ["5", "4"]⟩ (by decide)

/-! ## Fuzzy-match formula (C7) -/


/-! ## Concrete fixtures -/




/-- C5: the claim says an empty answers list is rejected before any session
mutation.  `ChallengeAnswerIn` puts no lower bound on the list, the route
never checks for emptiness, and the aggregate validator scores an empty
submission as incorrect: the call is accepted, `questions_attempted` is
incremented and `attempts_left` decremented on this open session. -/
theorem empty_answers_accepted_and_mutating :
    challenge_answer none chC5 [] [] [] =
      .ok { chC5 with session_progress := some ⟨0, 2, 1⟩, attempts_left := 1 }
        (.DENY 0 "incorrect_answer") := by
  decide

/-- C3: once a session's status is `passed`, `failed` or `expired`, every
further `submitAnswers` call returns the `challenge_closed` error (HTTP 400)
and writes nothing: the session row is left exactly as it was. -/
theorem terminal_states_are_absorbing (ch : Challenge)
    (ai : Option (Except String AIJudgment)) (answers : List Answer)
    (vc : Bool) (nq : List Question) (nak : List (String × String))
    (h : ch.status = "passed" ∨ ch.status = "failed" ∨ ch.status = "expired") :
    challenge_answer ai ch answers nq nak = .httpError 400 "challenge_closed" ∧
      apply_call ch ⟨vc, nq, nak⟩ = ch := by
  have hne : ch.status ≠ "open" := by
    rcases h with h | h | h <;> rw [h] <;> decide
  have h1 : ∀ b : Bool, challenge_answer_core ch b nq nak = .httpError 400 "challenge_closed" := by
    intro b
    unfold challenge_answer_core
    rw [if_pos hne]
  refine ⟨?_, ?_⟩
  · unfold challenge_answer
    exact h1 _
  · unfold apply_call
    rw [h1]

theorem terminal_states_are_absorbing_w :
    challenge_answer none { chC5 with status := "passed" } [⟨"q1", "4"⟩] [] [] =
        .httpError 400 "challenge_closed" ∧
      apply_call { chC5 with status := "passed" } ⟨true, [], []⟩ = { chC5 with status := "passed" } :=
  terminal_states_are_absorbing { chC5 with status := "passed" } none [⟨"q1", "4"⟩] true [] []
    (Or.inl rfl)
/-- Effect of one successful `challenge_answer` decision on `attempts_left`:
never increased, never negative, and a committed `failed` row has
`attempts_left = 0` (shared helper for the sequence theorem). -/
theorem challenge_answer_core_attempts (ch : Challenge) (vc : Bool)
    (nq : List Question) (nak : List (String × String))
    (h0 : 0 ≤ ch.attempts_left) (ch2 : Challenge) (d : Decision)
    (h : challenge_answer_core ch vc nq nak = .ok ch2 d) :
    ch2.attempts_left ≤ ch.attempts_left ∧ 0 ≤ ch2.attempts_left ∧
      (ch2.status = "failed" → ch2.attempts_left = 0) := by
  unfold challenge_answer_core at h
  split at h
  · exact absurd h (by simp)
  · rename_i hopen0
    push_neg at hopen0
    dsimp only at h
    repeat' split at h
    all_goals injection h with h1 h2
    all_goals subst h1
    all_goals simp only [decrement_attempts]
    all_goals
      exact ⟨by first | exact le_refl _ | exact max_le h0 (by omega),
             by first | exact h0 | exact le_max_left _ _,
             by intro hfail; first | omega | simp [hopen0] at hfail⟩

/-- Single-call version of the attempts invariant. -/
theorem apply_call_attempts (ch : Challenge) (inp : CallInput)
    (h0 : 0 ≤ ch.attempts_left) (hf : ch.status = "failed" → ch.attempts_left = 0) :
    (apply_call ch inp).attempts_left ≤ ch.attempts_left ∧
    0 ≤ (apply_call ch inp).attempts_left ∧
    ((apply_call ch inp).status = "failed" → (apply_call ch inp).attempts_left = 0) := by
  unfold apply_call
  rcases hr : challenge_answer_core ch inp.validation_correct inp.next_questions inp.next_answer_key with
    _ | ⟨ch2, d⟩
  · exact ⟨le_refl _, h0, hf⟩
  · exact challenge_answer_core_attempts ch inp.validation_correct inp.next_questions
      inp.next_answer_key h0 ch2 d hr

/-- C4: over every sequence of `submitAnswers` calls on a session whose
`attempts_left` starts nonnegative (and is 0 if it already starts `failed`),
`attempts_left` never increases, never becomes negative, and equals exactly
0 whenever the status has become `failed`. -/
theorem attempts_left_monotone_run (inps : List CallInput) : ∀ ch : Challenge,
    0 ≤ ch.attempts_left → (ch.status = "failed" → ch.attempts_left = 0) →
    (run_calls ch inps).attempts_left ≤ ch.attempts_left ∧
    0 ≤ (run_calls ch inps).attempts_left ∧
    ((run_calls ch inps).status = "failed" → (run_calls ch inps).attempts_left = 0) := by
  induction inps with
  | nil =>
    intro ch h0 hf
    exact ⟨le_refl _, h0, hf⟩
  | cons i is ih =>
    intro ch h0 hf
    have hstep := apply_call_attempts ch i h0 hf
    have hrest := ih (apply_call ch i) hstep.2.1 hstep.2.2
    have hrun : run_calls ch (i :: is) = run_calls (apply_call ch i) is := rfl
    rw [hrun]
    exact ⟨le_trans hrest.1 hstep.1, hrest.2.1, hrest.2.2⟩

theorem attempts_left_monotone_run_w :
    (run_calls chC5 [⟨false, [], []⟩, ⟨false, [], []⟩]).attempts_left ≤ chC5.attempts_left ∧
    0 ≤ (run_calls chC5 [⟨false, [], []⟩, ⟨false, [], []⟩]).attempts_left ∧
    ((run_calls chC5 [⟨false, [], []⟩, ⟨false, [], []⟩]).status = "failed" →
      (run_calls chC5 [⟨false, [], []⟩, ⟨false, [], []⟩]).attempts_left = 0) :=
  attempts_left_monotone_run [⟨false, [], []⟩, ⟨false, [], []⟩] chC5 (by decide)
    (fun h => absurd h (by decide))
/-! ## Validation-tier claims -/



/-- A nonempty string has a nonempty (lowercased) character set. -/
theorem charSet_ne_empty (s : String) (h : s ≠ "") :
    AnswerValidator.charSet s ≠ ∅ := by
  intro hempty
  apply h
  have hl : (s.toList.map Char.toLower).toFinset = ∅ := hempty
  rw [List.toFinset_eq_empty_iff, List.map_eq_nil_iff] at hl
  cases s with
  | mk data =>
    simp only [String.toList] at hl
    simp [hl]

/-- C7: the fuzzy-match score is 0.7 times the Jaccard similarity of the two
lowercased character sets plus 0.3 times the length similarity
`1 - |len(a) - len(b)| / max(len(a), len(b), 1)`, and is 0 whenever either
string is empty. -/
theorem fuzzy_match_score_formula (a b : String) :
    (a = "" ∨ b = "" → AnswerValidator.fuzzy_match_score a b = 0) ∧
    (a ≠ "" → b ≠ "" →
      AnswerValidator.fuzzy_match_score a b =
        7/10 * jaccard_similarity (AnswerValidator.charSet a) (AnswerValidator.charSet b) +
        3/10 * (1 - |(a.length : ℚ) - (b.length : ℚ)| /
          ((max (max a.length b.length) 1 : ℕ) : ℚ))) := by
  constructor
  · intro h
    unfold AnswerValidator.fuzzy_match_score
    rw [if_pos h]
  · intro ha hb
    unfold AnswerValidator.fuzzy_match_score
    rw [if_neg (by push_neg; exact ⟨ha, hb⟩)]
    dsimp only
    rw [if_neg (charSet_ne_empty b hb)]
    rfl

theorem fuzzy_match_score_formula_w :
    AnswerValidator.fuzzy_match_score "" "abc" = 0 ∧
    AnswerValidator.fuzzy_match_score "ab" "b" =
      7/10 * jaccard_similarity (AnswerValidator.charSet "ab") (AnswerValidator.charSet "b") +
      3/10 * (1 - |("ab".length : ℚ) - ("b".length : ℚ)| /
        ((max (max "ab".length "b".length) 1 : ℕ) : ℚ)) :=
  ⟨(fuzzy_match_score_formula "" "abc").1 (Or.inl rfl),
   (fuzzy_match_score_formula "ab" "b").2 (by decide) (by decide)⟩

/-! ## Unknown persona fallthrough (C10) -/

/-- C10: for every persona value that is not a key of the persona
configuration table (not tutor, maternal or general), `validate_answer`
still returns a result and scores it with the GENERAL persona's
configuration, which uses the BALANCED strategy with threshold 0.75. -/
theorem unknown_persona_scored_as_general (persona : String)
    (h : persona ≠ "tutor" ∧ persona ≠ "maternal" ∧ persona ≠ "general") :
    AnswerValidator.getConfig persona = AnswerValidator.generalConfig ∧
    (∀ s c : String, AnswerValidator.validate_answer s c persona =
      AnswerValidator.validate_answer s c "general") ∧
    AnswerValidator.generalConfig.strategy = .balanced ∧
    AnswerValidator.generalConfig.score_threshold = 75/100 := by
  have hcfg : AnswerValidator.getConfig persona = AnswerValidator.generalConfig := by
    have b1 : (persona == "tutor") = false := beq_eq_false_iff_ne.mpr h.1
    have b2 : (persona == "maternal") = false := beq_eq_false_iff_ne.mpr h.2.1
    have b3 : (persona == "general") = false := beq_eq_false_iff_ne.mpr h.2.2
    unfold AnswerValidator.getConfig AnswerValidator.persona_configs
    simp [List.lookup, b1, b2, b3]
  have hgen : AnswerValidator.getConfig "general" = AnswerValidator.generalConfig := by
    decide
  refine ⟨hcfg, ?_, rfl, rfl⟩
  intro s c
  unfold AnswerValidator.validate_answer
  rw [hcfg, hgen]

theorem unknown_persona_scored_as_general_w :
    AnswerValidator.getConfig "child" = AnswerValidator.generalConfig ∧
    (∀ s c : String, AnswerValidator.validate_answer s c "child" =
      AnswerValidator.validate_answer s c "general") ∧
    AnswerValidator.generalConfig.strategy = .balanced ∧
    AnswerValidator.generalConfig.score_threshold = 75/100 :=
  unknown_persona_scored_as_general "child" ⟨by decide, by decide, by decide⟩
/-! ## Score bounds (C9) -/

/-- The fuzzy-match score always lies in `[0, 1]` (shared bound lemma). -/
theorem fuzzy_match_score_bounds (a b : String) :
    0 ≤ AnswerValidator.fuzzy_match_score a b ∧
      AnswerValidator.fuzzy_match_score a b ≤ 1 := by
  unfold AnswerValidator.fuzzy_match_score
  split
  · norm_num
  · dsimp only
    split
    · norm_num
    · rename_i hcc
      have hsub : AnswerValidator.charSet a ∩ AnswerValidator.charSet b ⊆
          AnswerValidator.charSet a ∪ AnswerValidator.charSet b :=
        Finset.inter_subset_union
      have hpos : 0 < (((AnswerValidator.charSet a ∪ AnswerValidator.charSet b).card : ℕ) : ℚ) := by
        have hne : (AnswerValidator.charSet b).Nonempty := Finset.nonempty_iff_ne_empty.mpr hcc
        have hu : (AnswerValidator.charSet a ∪ AnswerValidator.charSet b).Nonempty :=
          hne.mono Finset.subset_union_right
        exact_mod_cast Finset.card_pos.mpr hu
      have hjac0 : 0 ≤ (((AnswerValidator.charSet a ∩ AnswerValidator.charSet b).card : ℕ) : ℚ) /
          (((AnswerValidator.charSet a ∪ AnswerValidator.charSet b).card : ℕ) : ℚ) :=
        div_nonneg (Nat.cast_nonneg _) (Nat.cast_nonneg _)
      have hjac1 : (((AnswerValidator.charSet a ∩ AnswerValidator.charSet b).card : ℕ) : ℚ) /
          (((AnswerValidator.charSet a ∪ AnswerValidator.charSet b).card : ℕ) : ℚ) ≤ 1 := by
        rw [div_le_one hpos]
        exact_mod_cast Finset.card_le_card hsub
      have hM1 : (1 : ℚ) ≤ ((max (max a.length b.length) 1 : ℕ) : ℚ) := by
        exact_mod_cast Nat.le_max_right (max a.length b.length) 1
      have hMpos : (0 : ℚ) < ((max (max a.length b.length) 1 : ℕ) : ℚ) := by linarith
      have hlaM : ((a.length : ℕ) : ℚ) ≤ ((max (max a.length b.length) 1 : ℕ) : ℚ) := by
        exact_mod_cast le_trans (Nat.le_max_left a.length b.length)
          (Nat.le_max_left (max a.length b.length) 1)
      have hlbM : ((b.length : ℕ) : ℚ) ≤ ((max (max a.length b.length) 1 : ℕ) : ℚ) := by
        exact_mod_cast le_trans (Nat.le_max_right a.length b.length)
          (Nat.le_max_left (max a.length b.length) 1)
      have hla0 : (0 : ℚ) ≤ ((a.length : ℕ) : ℚ) := Nat.cast_nonneg _
      have hlb0 : (0 : ℚ) ≤ ((b.length : ℕ) : ℚ) := Nat.cast_nonneg _
      have habs : |((a.length : ℕ) : ℚ) - ((b.length : ℕ) : ℚ)| ≤
          ((max (max a.length b.length) 1 : ℕ) : ℚ) :=
        abs_sub_le_iff.mpr ⟨by linarith, by linarith⟩
      have hdiv0 : 0 ≤ |((a.length : ℕ) : ℚ) - ((b.length : ℕ) : ℚ)| /
          ((max (max a.length b.length) 1 : ℕ) : ℚ) :=
        div_nonneg (abs_nonneg _) (le_of_lt hMpos)
      have hdiv1 : |((a.length : ℕ) : ℚ) - ((b.length : ℕ) : ℚ)| /
          ((max (max a.length b.length) 1 : ℕ) : ℚ) ≤ 1 :=
        (div_le_one hMpos).mpr habs
      constructor
      · nlinarith
      · nlinarith

/-- The semantic-match score always lies in `[0, 1]` (shared bound lemma). -/
theorem semantic_match_score_bounds (a b : String) :
    0 ≤ AnswerValidator.semantic_match_score a b ∧
      AnswerValidator.semantic_match_score a b ≤ 1 := by
  unfold AnswerValidator.semantic_match_score
  dsimp only
  split
  · norm_num
  · rename_i hcc
    have hpos : 0 < (((AnswerValidator.wordSet b).card : ℕ) : ℚ) := by
      exact_mod_cast Finset.card_pos.mpr (Finset.nonempty_iff_ne_empty.mpr hcc)
    constructor
    · exact div_nonneg (Nat.cast_nonneg _) (Nat.cast_nonneg _)
    · rw [div_le_one hpos]
      exact_mod_cast Finset.card_le_card Finset.inter_subset_right

/-- The partial-credit score lies in `[0, 1]` whenever the persona's
partial-credit cap does (shared bound lemma). -/
theorem partial_credit_score_bounds (a b : String) (config : ValidationConfig)
    (h0 : 0 ≤ config.max_partial_credit) (h1 : config.max_partial_credit ≤ 1) :
    0 ≤ AnswerValidator.partial_credit_score a b config ∧
      AnswerValidator.partial_credit_score a b config ≤ 1 := by
  unfold AnswerValidator.partial_credit_score
  split
  · norm_num
  · split
    · norm_num
    · dsimp only
      have hf := fuzzy_match_score_bounds a b
      have hs := semantic_match_score_bounds a b
      constructor
      · exact le_min (by nlinarith [hf.1, hs.1]) h0
      · exact le_trans (min_le_right _ _) h1

/-- Score `_calculate_score` lies in `[0, 1]` under every strategy whenever the
partial-credit cap does (shared bound lemma). -/
theorem calculate_score_bounds (a b : String) (config : ValidationConfig)
    (h0 : 0 ≤ config.max_partial_credit) (h1 : config.max_partial_credit ≤ 1) :
    0 ≤ AnswerValidator.calculate_score a b config ∧
      AnswerValidator.calculate_score a b config ≤ 1 := by
  rcases config with ⟨strat, th, apc, cap, cs, iw⟩
  unfold AnswerValidator.calculate_score
  cases strat with
  | exact_match =>
    dsimp only
    split <;> norm_num
  | fuzzy_match => exact fuzzy_match_score_bounds a b
  | semantic_match => exact semantic_match_score_bounds a b
  | partial_credit => exact partial_credit_score_bounds a b _ h0 h1
  | balanced =>
    dsimp only
    split
    · norm_num
    · rw [if_neg (by norm_num : ¬(0 : ℚ) = 1)]
      have hf := fuzzy_match_score_bounds a b
      simp only at h0 h1
      constructor
      · exact le_max_left _ _
      · exact max_le (by norm_num) (mul_le_one₀ hf.2 h0 h1)

/-- The partial-credit cap of every persona configuration (known or
fallthrough) lies in `[0, 1]` (shared bound lemma). -/
theorem getConfig_cap_bounds (p : String) :
    0 ≤ (AnswerValidator.getConfig p).max_partial_credit ∧
      (AnswerValidator.getConfig p).max_partial_credit ≤ 1 := by
  by_cases h1 : p = "tutor"
  · subst h1
    exact ⟨by decide, by decide⟩
  by_cases h2 : p = "maternal"
  · subst h2
    exact ⟨by decide, by decide⟩
  by_cases h3 : p = "general"
  · subst h3
    exact ⟨by decide, by decide⟩
  have b1 : (p == "tutor") = false := beq_eq_false_iff_ne.mpr h1
  have b2 : (p == "maternal") = false := beq_eq_false_iff_ne.mpr h2
  have b3 : (p == "general") = false := beq_eq_false_iff_ne.mpr h3
  unfold AnswerValidator.getConfig AnswerValidator.persona_configs
  simp only [List.lookup, b1, b2, b3, Option.getD_none]
  exact ⟨by decide, by decide⟩

/-- C9: the score produced by the rule-based `validate_answer` lies in the
closed interval `[0, 1]` for every student answer, correct answer and
persona; and `_calculate_score` does so under every strategy for every
configuration whose partial-credit cap lies in `[0, 1]`. -/
theorem rule_based_score_in_unit_interval :
    (∀ config : ValidationConfig,
      0 ≤ config.max_partial_credit → config.max_partial_credit ≤ 1 →
      ∀ a b : String, 0 ≤ AnswerValidator.calculate_score a b config ∧
        AnswerValidator.calculate_score a b config ≤ 1) ∧
    (∀ a b persona : String,
      0 ≤ (AnswerValidator.validate_answer a b persona).score ∧
        (AnswerValidator.validate_answer a b persona).score ≤ 1) := by
  constructor
  · intro config h0 h1 a b
    exact calculate_score_bounds a b config h0 h1
  · intro a b persona
    unfold AnswerValidator.validate_answer
    dsimp only
    exact calculate_score_bounds _ _ _ (getConfig_cap_bounds persona).1
      (getConfig_cap_bounds persona).2

theorem rule_based_score_in_unit_interval_w :
    (0 ≤ AnswerValidator.calculate_score "5" "4" AnswerValidator.tutorConfig ∧
      AnswerValidator.calculate_score "5" "4" AnswerValidator.tutorConfig ≤ 1) ∧
    (0 ≤ (AnswerValidator.validate_answer "5" "4" "tutor").score ∧
      (AnswerValidator.validate_answer "5" "4" "tutor").score ≤ 1) :=
  ⟨rule_based_score_in_unit_interval.1 AnswerValidator.tutorConfig
      (by norm_num [AnswerValidator.tutorConfig]) (by norm_num [AnswerValidator.tutorConfig]) "5" "4",
   rule_based_score_in_unit_interval.2 "5" "4" "tutor"⟩
/-! ## Router selection (C8) -/

/-- On a nonempty match list, the selection block picks an element of the
list (shared helper). -/
theorem select_from_some (prefer_llm : String) (l : List (String × AgentConfig))
    (hne : l ≠ []) :
    ∃ p ∈ l, AgentRouter.select_from prefer_llm l = some p := by
  cases l with
  | nil => exact absurd rfl hne
  | cons first rest =>
    unfold AgentRouter.select_from
    rcases hp : List.filter (fun p => decide (p.2.llm_provider.value = prefer_llm))
        (first :: rest) with _ | ⟨p, ps⟩
    · rcases hn : List.filter (fun p => decide (p.2.llm_provider ≠ LLMProvider.mock))
          (first :: rest) with _ | ⟨n, ns⟩
      · refine ⟨first, List.mem_cons_self _ _, ?_⟩
        rw [hp, hn]
      · refine ⟨n, ?_, ?_⟩
        · exact List.mem_of_mem_filter (hn ▸ List.mem_cons_self n ns)
        · rw [hp, hn]
    · refine ⟨p, ?_, ?_⟩
      · exact List.mem_of_mem_filter (hp ▸ List.mem_cons_self p ps)
      · rw [hp]

/-- When some match uses the preferred provider, the selection block picks a
preferred-provider entry (shared helper). -/
theorem select_from_preferred (prefer_llm : String) (l : List (String × AgentConfig))
    (hx : ∃ q ∈ l, q.2.llm_provider.value = prefer_llm) :
    ∃ p, AgentRouter.select_from prefer_llm l = some p ∧
      p.2.llm_provider.value = prefer_llm := by
  obtain ⟨q, hq, hqv⟩ := hx
  cases l with
  | nil => cases hq
  | cons first rest =>
    unfold AgentRouter.select_from
    rcases hp : List.filter (fun p => decide (p.2.llm_provider.value = prefer_llm))
        (first :: rest) with _ | ⟨p, ps⟩
    · exfalso
      have hq2 := List.filter_eq_nil_iff.mp hp q hq
      simp at hq2
      exact hq2 hqv
    · refine ⟨p, ?_, ?_⟩
      · rw [hp]
      · have := List.of_mem_filter (hp ▸ List.mem_cons_self p ps)
        simpa using this

/-- C8: with a fixed registry and availability snapshot, `select_agent` is
deterministic in the persona/subject/difficulty of the context; whenever a
matching available config uses the preferred backend, a preferred-backend
config is selected; and whenever any matching config exists, one of them is
selected and no `NoProviderAvailable` error is raised. -/
theorem router_selection_properties :
    (∀ (st : RouterSettings) (c1 c2 : AgentContext),
      c1.persona = c2.persona → c1.subject = c2.subject → c1.difficulty = c2.difficulty →
      AgentRouter.select_agent st c1 = AgentRouter.select_agent st c2) ∧
    (∀ (st : RouterSettings) (ctx : AgentContext), st.router_enabled = true →
      (∃ q ∈ AgentRouter.matching_configs st ctx, q.2.llm_provider.value = st.prefer_llm) →
      ∃ p : String × AgentConfig, AgentRouter.select_agent st ctx = .agent p.1 p.2 ∧
        p.2.llm_provider.value = st.prefer_llm) ∧
    (∀ (st : RouterSettings) (ctx : AgentContext), st.router_enabled = true →
      AgentRouter.matching_configs st ctx ≠ [] →
      (∃ p ∈ AgentRouter.matching_configs st ctx,
        AgentRouter.select_agent st ctx = .agent p.1 p.2) ∧
      AgentRouter.select_agent st ctx ≠ .no_agent) := by
  refine ⟨?_, ?_, ?_⟩
  · intro st c1 c2 h1 h2 h3
    cases c1 with
    | mk l1 m1 r1 p1 s1 d1 =>
      cases c2 with
      | mk l2 m2 r2 p2 s2 d2 =>
        dsimp only at h1 h2 h3
        subst h1
        subst h2
        subst h3
        rfl
  · intro st ctx hen hx
    obtain ⟨p, hsel, hpv⟩ :=
      select_from_preferred st.prefer_llm (AgentRouter.matching_configs st ctx) hx
    unfold AgentRouter.select_agent
    rw [hen]
    simp only [not_true_eq_false, if_false]
    rw [hsel]
    exact ⟨p, rfl, hpv⟩
  · intro st ctx hen hne
    obtain ⟨p, hm, hsel⟩ :=
      select_from_some st.prefer_llm (AgentRouter.matching_configs st ctx) hne
    unfold AgentRouter.select_agent
    rw [hen]
    simp only [not_true_eq_false, if_false]
    rw [hsel]
    exact ⟨⟨p, hm, rfl⟩, by simp⟩

theorem router_selection_properties_w :
    (AgentRouter.select_agent ⟨true, "openai", true, true⟩
        ⟨"pt-BR", "m1", "r1", .tutor, none, none⟩ =
      AgentRouter.select_agent ⟨true, "openai", true, true⟩
        ⟨"en-US", "m2", "r2", .tutor, none, none⟩) ∧
    (∃ p : String × AgentConfig, AgentRouter.select_agent ⟨true, "openai", true, true⟩
        ⟨"pt-BR", "m1", "r1", .tutor, none, none⟩ = .agent p.1 p.2 ∧
      p.2.llm_provider.value = "openai") ∧
    ((∃ p ∈ AgentRouter.matching_configs ⟨true, "openai", false, false⟩
        ⟨"pt-BR", "m", "r", .general, none, none⟩,
      AgentRouter.select_agent ⟨true, "openai", false, false⟩
        ⟨"pt-BR", "m", "r", .general, none, none⟩ = .agent p.1 p.2) ∧
      AgentRouter.select_agent ⟨true, "openai", false, false⟩
        ⟨"pt-BR", "m", "r", .general, none, none⟩ ≠ .no_agent) :=
  ⟨router_selection_properties.1 ⟨true, "openai", true, true⟩
      ⟨"pt-BR", "m1", "r1", .tutor, none, none⟩ ⟨"en-US", "m2", "r2", .tutor, none, none⟩
      rfl rfl rfl,
   router_selection_properties.2.1 ⟨true, "openai", true, true⟩
      ⟨"pt-BR", "m1", "r1", .tutor, none, none⟩ rfl (by decide),
   router_selection_properties.2.2 ⟨true, "openai", false, false⟩
      ⟨"pt-BR", "m", "r", .general, none, none⟩ rfl (by decide)⟩
